import Mathlib

/-!
Shallow embedding of the livekit-stream session & recording lifecycle
coordinator (backend HTTP handlers in `src/backend/index.ts`, the egress
service wrapper in `src/backend/services/LiveStreamRecorder.ts`, and the
client recording controller hook `useLiveRecording`).

The in-memory room map (a JS `Map` iterated in insertion order) is modelled
as an association list; external effects (LiveKit egress provider, JWT
signing) are modelled by explicit outcome parameters.
-/

set_option maxHeartbeats 1000000
set_option maxRecDepth 8000

namespace LivekitStream

/-- A room record, mirroring the `Room` interface in `src/backend/index.ts`.
`recordingUrl` and `egressId` are the optional fields (`undefined` ↦ `none`);
`createdAt` is an epoch timestamp. -/
structure Room where
  id : String
  hostName : String
  createdAt : Nat
  isActive : Bool
  recordingUrl : Option String
  egressId : Option String
  isRecording : Bool
deriving Repr, DecidableEq

/-- The `activeRooms` map: association list in insertion order (JS `Map`
iteration order). -/
abbrev Registry := List (String × Room)

/-- Model of `activeRooms.get(k)`. -/
def mapGet (m : Registry) (k : String) : Option Room :=
  match m with
  | [] => none
  | (k₂, v) :: rest => if k₂ = k then some v else mapGet rest k

/-- Model of `activeRooms.set(k, v)`: replaces an existing binding in place (JS `Map`
keeps the original insertion position), appends otherwise. -/
def mapSet (m : Registry) (k : String) (v : Room) : Registry :=
  if m.any (fun p => decide (p.1 = k)) then
    m.map (fun p => if p.1 = k then (k, v) else p)
  else
    m ++ [(k, v)]

/-- Character class of the room-name regex `/^[a-zA-Z0-9_-]+$/`. -/
def isRoomNameChar (c : Char) : Bool :=
  c.isAlpha || c.isDigit || c = '_' || c = '-'

/-- The check `validateRoomName`: 1–100 characters from `[a-zA-Z0-9_-]`. -/
def validateRoomName (s : String) : Bool :=
  1 ≤ s.length && s.length ≤ 100 && s.toList.all isRoomNameChar

/-- Character class of the participant-name regex `/^[a-zA-Z0-9_\s-]+$/`
(`\s` matched against the whitespace characters that can actually occur in
the JSON string bodies handled here). -/
def isParticipantNameChar (c : Char) : Bool :=
  c.isAlpha || c.isDigit || c = '_' || c = '-' || c.isWhitespace

/-- The check `validateParticipantName`: 1–50 characters from `[a-zA-Z0-9_\s-]`. -/
def validateParticipantName (s : String) : Bool :=
  1 ≤ s.length && s.length ≤ 50 && s.toList.all isParticipantNameChar

/-- S3 bucket/region configuration held by `LiveStreamRecorder`. -/
structure S3Config where
  bucket : String
  region : String
deriving Repr, DecidableEq

/-- Server configuration relevant to the handlers: whether the
`LiveStreamRecorder` was constructed, whether the LiveKit credentials /
server URL env vars are present, plus the S3 config and frontend base URL. -/
structure ServerConfig where
  recorderAvailable : Bool
  livekitKeyConfigured : Bool
  livekitUrlConfigured : Bool
  s3 : S3Config
  frontendUrl : String
deriving Repr, DecidableEq

/-- Outcome of the external `egressClient.startRoomCompositeEgress` call. -/
inductive ProviderStart where
  | ok (egressId : String)
  | throw (msg : String)
deriving Repr, DecidableEq

/-- One entry of `egressInfo.fileResults`; `filename` may be the empty
string (falsy in JS). -/
structure FileResult where
  filename : String
deriving Repr, DecidableEq

/-- Terminal `EgressStatus` values of the livekit-server-sdk. -/
inductive EgressStatus where
  | starting
  | active
  | ending
  | complete
  | failed
  | aborted
  | limitReached
deriving Repr, DecidableEq

/-- Printable name of an egress status (used in error messages only). -/
def EgressStatus.name : EgressStatus → String
  | .starting => "EGRESS_STARTING"
  | .active => "EGRESS_ACTIVE"
  | .ending => "EGRESS_ENDING"
  | .complete => "EGRESS_COMPLETE"
  | .failed => "EGRESS_FAILED"
  | .aborted => "EGRESS_ABORTED"
  | .limitReached => "EGRESS_LIMIT_REACHED"

/-- Outcome of the external `egressClient.stopEgress` call. -/
inductive ProviderStop where
  | result (status : EgressStatus) (fileResults : List FileResult)
  | throw (msg : String)
deriving Repr, DecidableEq

/-- JS truthiness of an optional string: present and nonempty. -/
def truthyOpt : Option String → Bool
  | some s => s ≠ ""
  | none => false

/-- The `RecordingResponse` returned by `LiveStreamRecorder.startLiveRecording`. -/
structure RecordingResponse where
  egressId : String
  roomName : String
  filePath : String
  status : String
deriving Repr, DecidableEq

/-- The `RecordingStopResponse` returned by
`LiveStreamRecorder.stopLiveRecording`. -/
structure RecordingStopResponse where
  egressId : String
  s3Url : Option String
  status : String
  error : Option String
deriving Repr, DecidableEq

/-- The destination path `live-recordings/${roomName}/${timestamp}.mp4`. -/
def filePathFor (roomName : String) (timestamp : Nat) : String :=
  "live-recordings/" ++ roomName ++ "/" ++ toString timestamp ++ ".mp4"

/-- Model of `LiveStreamRecorder.startLiveRecording`: calls the provider and either
returns a `starting` response or rethrows the wrapped provider error. -/
def startLiveRecording (roomName : String) (timestamp : Nat)
    (provider : ProviderStart) : Except String RecordingResponse :=
  match provider with
  | .ok egressId =>
      .ok { egressId := egressId, roomName := roomName,
            filePath := filePathFor roomName timestamp, status := "starting" }
  | .throw msg => .error ("Failed to start recording: " ++ msg)

/-- The S3 URL `https://${bucket}.s3.${region}.amazonaws.com/${filename}`. -/
def s3UrlFor (cfg : S3Config) (filename : String) : String :=
  "https://" ++ cfg.bucket ++ ".s3." ++ cfg.region ++ ".amazonaws.com/" ++ filename

/-- Model of `LiveStreamRecorder.stopLiveRecording`: never throws — a provider error
is caught and converted to a `failed` response; `completed` requires
`EGRESS_COMPLETE`, a nonempty `fileResults`, and a truthy first filename. -/
def stopLiveRecording (cfg : S3Config) (egressId : String)
    (provider : ProviderStop) : RecordingStopResponse :=
  match provider with
  | .result status fileResults =>
      match status, fileResults with
      | .complete, fr :: _ =>
          if fr.filename ≠ "" then
            { egressId := egressId, s3Url := some (s3UrlFor cfg fr.filename),
              status := "completed", error := none }
          else
            { egressId := egressId, s3Url := none, status := "failed",
              error := some ("Recording failed with status: " ++ EgressStatus.complete.name) }
      | st, _ =>
          { egressId := egressId, s3Url := none, status := "failed",
            error := some ("Recording failed with status: " ++ st.name) }
  | .throw msg =>
      { egressId := egressId, s3Url := none, status := "failed", error := some msg }

/-- Grants attached to a LiveKit access token. -/
structure TokenGrants where
  roomJoin : Bool
  room : String
  canPublish : Bool
  canSubscribe : Bool
  canPublishData : Bool
deriving Repr, DecidableEq

/-- Abstract issued credential: identity plus grants (the JWT signing
itself is external). -/
structure LiveKitToken where
  identity : String
  grants : TokenGrants
deriving Repr, DecidableEq

/-- Model of `generateLiveKitToken`: throws when env credentials are missing,
otherwise issues a token whose grants depend only on `isHost`. -/
def generateLiveKitToken (cfg : ServerConfig) (roomName participantName : String)
    (isHost : Bool) : Except String LiveKitToken :=
  if !cfg.livekitKeyConfigured then
    .error "LiveKit API credentials not configured"
  else if !cfg.livekitUrlConfigured then
    .error "LiveKit server URL not configured"
  else
    .ok { identity := participantName,
          grants := { roomJoin := true, room := roomName, canPublish := isHost,
                      canSubscribe := true, canPublishData := true } }

/-- An HTTP response: success payload or error message, each with a status
code. -/
inductive Resp (α : Type) where
  | ok (code : Nat) (val : α)
  | err (code : Nat) (msg : String)
deriving Repr, DecidableEq

/-- Success payload of `POST /api/recordings/start`. -/
structure StartPayload where
  egressId : String
  roomName : String
  filePath : String
  status : String
  message : String
deriving Repr, DecidableEq

/-- Result of `POST /api/recordings/start`: the response, the registry after
the request, and whether the egress provider was invoked. -/
structure StartEffects where
  resp : Resp StartPayload
  rooms : Registry
  providerCalled : Bool
deriving Repr, DecidableEq

/-- Handler of `POST /api/recordings/start` (`src/backend/index.ts:346-412`).
Checks, in source order: body field present/truthy, room-name shape,
recorder availability, room existence (404), room active (410), room not
already recording (409); then calls the provider and on success marks the
room recording with the returned egress id. A thrown provider error is
caught, leaving the registry untouched. -/
def startRecordingHandler (cfg : ServerConfig) (rooms : Registry)
    (roomName : Option String) (timestamp : Nat) (provider : ProviderStart) :
    StartEffects :=
  match roomName with
  | none =>
      ⟨.err 400 "Missing required field: roomName is required", rooms, false⟩
  | some rn =>
      if rn = "" then
        ⟨.err 400 "Missing required field: roomName is required", rooms, false⟩
      else if !validateRoomName rn then
        ⟨.err 400 "Invalid roomName: must be 1-100 characters, alphanumeric, underscore, or dash only", rooms, false⟩
      else if !cfg.recorderAvailable then
        ⟨.err 500 "Recording service not available: LiveKit or S3 credentials not configured", rooms, false⟩
      else
        match mapGet rooms rn with
        | none =>
            ⟨.err 404 "Room not found: The stream you are trying to record does not exist", rooms, false⟩
        | some room =>
            if !room.isActive then
              ⟨.err 410 "Room inactive: Cannot start recording for an inactive stream", rooms, false⟩
            else if room.isRecording then
              ⟨.err 409 "Recording already active: This stream is already being recorded", rooms, false⟩
            else
              match startLiveRecording rn timestamp provider with
              | .error msg =>
                  ⟨.err 500 ("Failed to start recording: " ++ msg), rooms, true⟩
              | .ok rr =>
                  ⟨.ok 201 { egressId := rr.egressId, roomName := rr.roomName,
                             filePath := rr.filePath, status := rr.status,
                             message := "Recording started successfully" },
                   mapSet rooms rn
                     { room with isRecording := true, egressId := some rr.egressId },
                   true⟩

/-- Success payload of `POST /api/recordings/stop`. -/
structure StopPayload where
  egressId : String
  s3Url : Option String
  status : String
  error : Option String
  message : String
deriving Repr, DecidableEq

/-- Result of `POST /api/recordings/stop`. -/
structure StopEffects where
  resp : Resp StopPayload
  rooms : Registry
deriving Repr, DecidableEq

/-- Handler of `POST /api/recordings/stop` (`src/backend/index.ts:415-487`).
Finds the first room whose stored `egressId` equals the requested one
(insertion-order scan with break), requires it to be recording, then stops
via the recorder (which never throws) and always clears `isRecording`;
`recordingUrl` is overwritten only on a completed stop with a truthy URL. -/
def stopRecordingHandler (cfg : ServerConfig) (rooms : Registry)
    (egressId : Option String) (provider : ProviderStop) : StopEffects :=
  match egressId with
  | none => ⟨.err 400 "Missing required field: egressId is required", rooms⟩
  | some eid =>
      if eid = "" then
        ⟨.err 400 "Missing required field: egressId is required", rooms⟩
      else if !cfg.recorderAvailable then
        ⟨.err 500 "Recording service not available: LiveKit or S3 credentials not configured", rooms⟩
      else
        match rooms.find? (fun p => decide (p.2.egressId = some eid)) with
        | none =>
            ⟨.err 404 "Recording not found: No active recording found with the provided egressId", rooms⟩
        | some (rid, room) =>
            if !room.isRecording then
              ⟨.err 409 "Recording not active: This recording is not currently active", rooms⟩
            else
              let sr := stopLiveRecording cfg.s3 eid provider
              let room₂ :=
                { room with
                    isRecording := false,
                    recordingUrl :=
                      if sr.status = "completed" && truthyOpt sr.s3Url then sr.s3Url
                      else room.recordingUrl }
              ⟨.ok 200 { egressId := sr.egressId, s3Url := sr.s3Url,
                         status := sr.status, error := sr.error,
                         message :=
                           if sr.status = "completed" then "Recording stopped successfully"
                           else "Recording stopped with errors" },
               mapSet rooms rid room₂⟩

/-- Success payload of `DELETE /api/rooms/:roomId`. -/
structure EndPayload where
  message : String
  roomId : String
  endedAt : Nat
deriving Repr, DecidableEq

/-- Handler of `DELETE /api/rooms/:roomId` (`src/backend/index.ts:310-343`): marks an
existing room inactive; 404 when absent. -/
def endRoomHandler (rooms : Registry) (roomId : String) (now : Nat) :
    Resp EndPayload × Registry :=
  if roomId = "" || !validateRoomName roomId then
    (.err 400 "Invalid roomId parameter", rooms)
  else
    match mapGet rooms roomId with
    | none =>
        (.err 404 "Room not found: The stream you are trying to end does not exist", rooms)
    | some room =>
        (.ok 200 { message := "Room ended successfully", roomId := roomId, endedAt := now },
         mapSet rooms roomId { room with isActive := false })

/-- Response body of `GET /api/rooms/:roomId`. -/
structure RoomInfo where
  roomId : String
  hostName : String
  createdAt : Nat
  isActive : Bool
  isRecording : Bool
  recordingUrl : Option String
deriving Repr, DecidableEq

/-- Handler of `GET /api/rooms/:roomId` (`src/backend/index.ts:265-307`): a missing
room yields a 200 with fabricated default info rather than a 404. -/
def getRoomInfoHandler (rooms : Registry) (roomId : String) (now : Nat) :
    Resp RoomInfo :=
  if roomId = "" || !validateRoomName roomId then
    .err 400 "Invalid roomId parameter"
  else
    match mapGet rooms roomId with
    | none =>
        .ok 200 { roomId := roomId, hostName := "Unknown Host", createdAt := now,
                  isActive := true, isRecording := false, recordingUrl := none }
    | some room =>
        .ok 200 { roomId := room.id, hostName := room.hostName,
                  createdAt := room.createdAt, isActive := room.isActive,
                  isRecording := room.isRecording, recordingUrl := room.recordingUrl }

/-- Response body of `GET /api/recordings/:roomId`. -/
structure RecStatusPayload where
  roomId : String
  isRecording : Bool
  egressId : Option String
  recordingUrl : Option String
  hostName : String
  isActive : Bool
deriving Repr, DecidableEq

/-- Handler of `GET /api/recordings/:roomId` (`src/backend/index.ts:490-522`). -/
def recordingStatusHandler (rooms : Registry) (roomId : String) :
    Resp RecStatusPayload :=
  if roomId = "" || !validateRoomName roomId then
    .err 400 "Invalid roomId parameter"
  else
    match mapGet rooms roomId with
    | none =>
        .err 404 "Room not found: The stream you are looking for does not exist"
    | some room =>
        .ok 200 { roomId := room.id, isRecording := room.isRecording,
                  egressId := room.egressId, recordingUrl := room.recordingUrl,
                  hostName := room.hostName, isActive := room.isActive }

/-- Success payload of `POST /api/token`. -/
structure TokenPayload where
  token : LiveKitToken
  roomName : String
  participantName : String
  isHost : Bool
deriving Repr, DecidableEq

/-- Handler of `POST /api/token` (`src/backend/index.ts:174-262`). For viewers
(`isHost = false`) a missing room is allowed (the 404 is commented out in
the source) while an inactive room fails with 410; the `typeof isHost`
check cannot fire in this typed model. -/
def tokenHandler (cfg : ServerConfig) (rooms : Registry)
    (roomName participantName : Option String) (isHost : Bool) :
    Resp TokenPayload :=
  match roomName, participantName with
  | some rn, some pn =>
      if rn = "" || pn = "" then
        .err 400 "Missing required fields: roomName and participantName are required"
      else if !validateRoomName rn then
        .err 400 "Invalid roomName: must be 1-100 characters, alphanumeric, underscore, or dash only"
      else if !validateParticipantName pn then
        .err 400 "Invalid participantName: must be 1-50 characters, alphanumeric, spaces, underscore, or dash only"
      else
        let viewerBlock : Option (Resp TokenPayload) :=
          if !isHost then
            match mapGet rooms rn with
            | none => none
            | some room =>
                if !room.isActive then
                  some (.err 410 "Room inactive: This stream has ended")
                else none
          else none
        match viewerBlock with
        | some r => r
        | none =>
            match generateLiveKitToken cfg rn pn isHost with
            | .error msg =>
                if msg = "LiveKit API credentials not configured" then
                  .err 500 "Server configuration error: LiveKit credentials not configured"
                else
                  .err 500 "Failed to generate token"
            | .ok tok => .ok 200 { token := tok, roomName := rn,
                                   participantName := pn, isHost := isHost }
  | _, _ =>
      .err 400 "Missing required fields: roomName and participantName are required"

/-- Success payload of `POST /api/rooms`. -/
structure CreatePayload where
  roomId : String
  hostToken : LiveKitToken
  shareUrl : String
  hostName : String
  createdAt : Nat
deriving Repr, DecidableEq

/-- Handler of `POST /api/rooms` (`src/backend/index.ts:93-171`): validates the host
name, stores a fresh active non-recording room, then generates the host
token (the room stays stored even if token generation throws). The fresh
room id is a parameter (`room_${Date.now()}_${random}` in the source). -/
def createRoomHandler (cfg : ServerConfig) (rooms : Registry)
    (hostName : Option String) (now : Nat) (newRoomId : String) :
    Resp CreatePayload × Registry :=
  match hostName with
  | none => (.err 400 "Missing required field: hostName is required", rooms)
  | some hn =>
      if hn = "" then
        (.err 400 "Missing required field: hostName is required", rooms)
      else if !validateParticipantName hn then
        (.err 400 "Invalid hostName: must be 1-50 characters, alphanumeric, spaces, underscore, or dash only", rooms)
      else
        let room : Room :=
          { id := newRoomId, hostName := hn, createdAt := now, isActive := true,
            recordingUrl := none, egressId := none, isRecording := false }
        let rooms₂ := mapSet rooms newRoomId room
        match generateLiveKitToken cfg newRoomId hn true with
        | .error msg =>
            if msg = "LiveKit API credentials not configured" then
              (.err 500 "Server configuration error: LiveKit credentials not configured", rooms₂)
            else
              (.err 500 "Failed to create room", rooms₂)
        | .ok tok =>
            (.ok 201 { roomId := newRoomId, hostToken := tok,
                       shareUrl := cfg.frontendUrl ++ "/stream/" ++ newRoomId,
                       hostName := hn, createdAt := now },
             rooms₂)

/-- Client-side recording controller state, mirroring `RecordingState` in
the `useLiveRecording` hook (`src/unnamed/part_001`). `lastError` is kept
as a flag (a `Date` in the source). -/
structure RecordingState where
  isRecording : Bool
  isLoading : Bool
  error : Option String
  egressId : Option String
  recordingUrl : Option String
  duration : Nat
  retryCount : Nat
  lastError : Bool
deriving Repr, DecidableEq

/-- Initial client state of `useLiveRecording`. -/
def initialRecordingState : RecordingState :=
  { isRecording := false, isLoading := false, error := none, egressId := none,
    recordingUrl := none, duration := 0, retryCount := 0, lastError := false }

/-- Result of invoking the `retryRecording` callback: either refused
locally (no network call scheduled) or a start/stop network call scheduled
after `delayMs` milliseconds. -/
inductive RetryAction where
  | refused (next : RecordingState)
  | scheduled (delayMs : Nat) (next : RecordingState)
deriving Repr, DecidableEq

/-- Model of `retryRecording` (`src/unnamed/part_001:185-209`): at `retryCount ≥ 3`
the attempt is refused with a terminal message and nothing is scheduled;
otherwise the delay is `2^retryCount * 1000` ms (1s, 2s, 4s) and the count
is incremented before the scheduled call. -/
def retryRecording (s : RecordingState) : RetryAction :=
  if s.retryCount ≥ 3 then
    .refused { s with error := some "Maximum retry attempts reached. Please try again later." }
  else
    let delay := 2 ^ s.retryCount * 1000
    .scheduled delay
      { s with
          error := some ("Retrying in " ++ toString (delay / 1000) ++ " seconds... ("
                          ++ toString (s.retryCount + 1) ++ "/3)"),
          retryCount := s.retryCount + 1 }

/-- Model of `canRetry` (`src/unnamed/part_001:245`):
`retryCount < 3 && !!error && !isLoading`. -/
def canRetry (s : RecordingState) : Bool :=
  s.retryCount < 3 && truthyOpt s.error && !s.isLoading

/-- One gateway operation, with the nondeterministic inputs (timestamps,
generated ids, provider outcomes) made explicit. Read-only endpoints are
included for completeness of the operation alphabet. -/
inductive Op where
  | createRoom (hostName : Option String) (now : Nat) (newRoomId : String)
  | endRoom (roomId : String) (now : Nat)
  | startRec (roomName : Option String) (timestamp : Nat) (p : ProviderStart)
  | stopRec (egressId : Option String) (p : ProviderStop)
  | getInfo (roomId : String) (now : Nat)
  | getRecStatus (roomId : String)
  | issueToken (roomName participantName : Option String) (isHost : Bool)
deriving Repr, DecidableEq

/-- Registry after one operation. The query endpoints (`getInfo`,
`getRecStatus`, `issueToken`) perform no registry writes in the source, so
they leave the registry unchanged. -/
def stepOp (cfg : ServerConfig) (rooms : Registry) : Op → Registry
  | .createRoom hn now newId => (createRoomHandler cfg rooms hn now newId).2
  | .endRoom rid now => (endRoomHandler rooms rid now).2
  | .startRec rn t p => (startRecordingHandler cfg rooms rn t p).rooms
  | .stopRec e p => (stopRecordingHandler cfg rooms e p).rooms
  | .getInfo _ _ => rooms
  | .getRecStatus _ => rooms
  | .issueToken _ _ _ => rooms

/-- Registry after a sequence of operations starting from `rooms`. -/
def runOps (cfg : ServerConfig) (rooms : Registry) (ops : List Op) : Registry :=
  ops.foldl (stepOp cfg) rooms

/-- The spec invariant `recordingActive ⇒ recordingJobId is set`, over
every room stored in the registry. -/
def RecInvariant (rooms : Registry) : Prop :=
  ∀ p ∈ rooms, p.2.isRecording = true → p.2.egressId.isSome = true

/-- The room record produced by a stop attempt on `room` (the body of the
registry update in `POST /api/recordings/stop`): recording cleared, URL
overwritten only on a completed stop with a truthy URL. -/
def roomAfterStop (s3 : S3Config) (eid : String) (p : ProviderStop) (room : Room) : Room :=
  { room with
      isRecording := false,
      recordingUrl :=
        if (stopLiveRecording s3 eid p).status = "completed"
            && truthyOpt (stopLiveRecording s3 eid p).s3Url then
          (stopLiveRecording s3 eid p).s3Url
        else room.recordingUrl }

/-! ### Concrete fixtures used by the witnesses -/

/-- A fully configured server. -/
def cfgEx : ServerConfig :=
  { recorderAvailable := true, livekitKeyConfigured := true,
    livekitUrlConfigured := true,
    s3 := { bucket := "my-bucket", region := "us-east-1" },
    frontendUrl := "http://localhost:5173" }

/-- An active, non-recording room. -/
def roomActiveEx : Room :=
  { id := "room4", hostName := "Alice", createdAt := 0, isActive := true,
    recordingUrl := none, egressId := none, isRecording := false }

/-- An ended room. -/
def roomEndedEx : Room :=
  { id := "room2", hostName := "Alice", createdAt := 0, isActive := false,
    recordingUrl := none, egressId := none, isRecording := false }

/-- An active room with a recording in flight. -/
def roomRecEx : Room :=
  { id := "room3", hostName := "Alice", createdAt := 0, isActive := true,
    recordingUrl := none, egressId := some "eg0", isRecording := true }

/-! ### Association-list lemmas for the room map -/

theorem mapGet_map_update (m : Registry) (k : String) (v : Room)
    (h : m.any (fun p => decide (p.1 = k)) = true) :
    mapGet (m.map (fun p => if p.1 = k then (k, v) else p)) k = some v := by
  induction m with
  | nil => simp at h
  | cons hd tl ih =>
    obtain ⟨k₂, v₂⟩ := hd
    by_cases hk : k₂ = k
    · subst hk
      have hhd : (if ((k₂, v₂) : String × Room).1 = k₂ then (k₂, v) else (k₂, v₂)) = (k₂, v) :=
        if_pos rfl
      rw [List.map_cons, hhd]
      simp [mapGet]
    · have h₂ : (tl.any fun p => decide (p.1 = k)) = true := by
        simp only [List.any_cons, Bool.or_eq_true, decide_eq_true_eq] at h
        rcases h with h | h
        · exact absurd h hk
        · exact h
      have hhd : (if ((k₂, v₂) : String × Room).1 = k then (k, v) else (k₂, v₂)) = (k₂, v₂) :=
        if_neg hk
      rw [List.map_cons, hhd]
      simp only [mapGet, if_neg hk]
      exact ih h₂

theorem mapGet_append_not_present (m l : Registry) (k : String)
    (h : m.any (fun p => decide (p.1 = k)) = false) :
    mapGet (m ++ l) k = mapGet l k := by
  induction m with
  | nil => simp
  | cons hd tl ih =>
    obtain ⟨k₂, v₂⟩ := hd
    simp only [List.any_cons, Bool.or_eq_false_iff, decide_eq_false_iff_not] at h
    simp only [List.cons_append, mapGet, if_neg h.1]
    exact ih h.2

theorem mapGet_mapSet_self (m : Registry) (k : String) (v : Room) :
    mapGet (mapSet m k v) k = some v := by
  unfold mapSet
  by_cases h : m.any (fun p => decide (p.1 = k)) = true
  · rw [if_pos h]
    exact mapGet_map_update m k v h
  · rw [if_neg h]
    rw [mapGet_append_not_present m [(k, v)] k (Bool.not_eq_true _ ▸ h)]
    simp [mapGet]

theorem mem_mapSet (m : Registry) (k : String) (v : Room) (p : String × Room)
    (h : p ∈ mapSet m k v) : p ∈ m ∨ p = (k, v) := by
  unfold mapSet at h
  split at h
  · rcases List.mem_map.mp h with ⟨q, hq, he⟩
    by_cases hk : q.1 = k
    · right
      rw [if_pos hk] at he
      exact he.symm
    · left
      rw [if_neg hk] at he
      exact he ▸ hq
  · rcases List.mem_append.mp h with h | h
    · exact Or.inl h
    · exact Or.inr (List.mem_singleton.mp h)

theorem mapGet_mem (m : Registry) (k : String) (v : Room)
    (h : mapGet m k = some v) : (k, v) ∈ m := by
  induction m with
  | nil => simp [mapGet] at h
  | cons hd tl ih =>
    obtain ⟨k₂, v₂⟩ := hd
    by_cases hk : k₂ = k
    · simp only [mapGet, if_pos hk] at h
      subst hk
      injection h with h
      subst h
      exact List.mem_cons_self _ _
    · simp only [mapGet, if_neg hk] at h
      exact List.mem_cons_of_mem _ (ih h)

theorem map_update_idem (m : Registry) (k : String) (v : Room) :
    (m.map (fun p => if p.1 = k then (k, v) else p)).map
        (fun p => if p.1 = k then (k, v) else p) =
      m.map (fun p => if p.1 = k then (k, v) else p) := by
  rw [List.map_map]
  apply List.map_congr_left
  intro p _
  by_cases hk : p.1 = k
  · simp [Function.comp, hk]
  · simp [Function.comp, hk]

theorem any_map_update (m : Registry) (k : String) (v : Room) :
    ((m.map (fun p => if p.1 = k then (k, v) else p)).any
        (fun p => decide (p.1 = k))) =
      m.any (fun p => decide (p.1 = k)) := by
  induction m with
  | nil => simp
  | cons hd tl ih =>
    obtain ⟨k₂, v₂⟩ := hd
    by_cases hk : k₂ = k
    · simp [hk]
    · simp [hk, ih]

theorem map_update_of_not_any (m : Registry) (k : String) (v : Room)
    (h : m.any (fun p => decide (p.1 = k)) = false) :
    m.map (fun p => if p.1 = k then (k, v) else p) = m := by
  induction m with
  | nil => simp
  | cons hd tl ih =>
    obtain ⟨k₂, v₂⟩ := hd
    simp only [List.any_cons, Bool.or_eq_false_iff, decide_eq_false_iff_not] at h
    simp only [List.map_cons, if_neg h.1, ih h.2]

theorem mapSet_mapSet_same (m : Registry) (k : String) (v : Room) :
    mapSet (mapSet m k v) k v = mapSet m k v := by
  unfold mapSet
  by_cases h : m.any (fun p => decide (p.1 = k)) = true
  · rw [if_pos h, if_pos ((any_map_update m k v).symm ▸ h), map_update_idem]
  · have h₀ : m.any (fun p => decide (p.1 = k)) = false := Bool.not_eq_true _ ▸ h
    rw [if_neg h]
    have hany : ((m ++ [(k, v)]).any (fun p => decide (p.1 = k))) = true := by
      simp
    rw [if_pos hany, List.map_append, map_update_of_not_any m k v h₀]
    simp

/-! ### Branch lemmas for the recording-start endpoint -/

theorem validateRoomName_ne_empty (s : String) (h : validateRoomName s = true) :
    s ≠ "" := by
  intro he
  subst he
  simp [validateRoomName] at h

theorem startRecordingHandler_absent (cfg : ServerConfig) (rooms : Registry)
    (rn : String) (t : Nat) (p : ProviderStart)
    (hv : validateRoomName rn = true) (hrec : cfg.recorderAvailable = true)
    (habs : mapGet rooms rn = none) :
    startRecordingHandler cfg rooms (some rn) t p =
      ⟨.err 404 "Room not found: The stream you are trying to record does not exist",
       rooms, false⟩ := by
  simp [startRecordingHandler, validateRoomName_ne_empty rn hv, hv, hrec, habs]

theorem startRecordingHandler_inactive (cfg : ServerConfig) (rooms : Registry)
    (rn : String) (t : Nat) (p : ProviderStart) (room : Room)
    (hv : validateRoomName rn = true) (hrec : cfg.recorderAvailable = true)
    (hget : mapGet rooms rn = some room) (hia : room.isActive = false) :
    startRecordingHandler cfg rooms (some rn) t p =
      ⟨.err 410 "Room inactive: Cannot start recording for an inactive stream",
       rooms, false⟩ := by
  simp [startRecordingHandler, validateRoomName_ne_empty rn hv, hv, hrec, hget, hia]

theorem startRecordingHandler_alreadyRecording (cfg : ServerConfig) (rooms : Registry)
    (rn : String) (t : Nat) (p : ProviderStart) (room : Room)
    (hv : validateRoomName rn = true) (hrec : cfg.recorderAvailable = true)
    (hget : mapGet rooms rn = some room) (ha : room.isActive = true)
    (hr : room.isRecording = true) :
    startRecordingHandler cfg rooms (some rn) t p =
      ⟨.err 409 "Recording already active: This stream is already being recorded",
       rooms, false⟩ := by
  simp [startRecordingHandler, validateRoomName_ne_empty rn hv, hv, hrec, hget, ha, hr]

theorem startRecordingHandler_success (cfg : ServerConfig) (rooms : Registry)
    (rn : String) (t : Nat) (e : String) (room : Room)
    (hv : validateRoomName rn = true) (hrec : cfg.recorderAvailable = true)
    (hget : mapGet rooms rn = some room) (ha : room.isActive = true)
    (hr : room.isRecording = false) :
    startRecordingHandler cfg rooms (some rn) t (.ok e) =
      ⟨.ok 201 { egressId := e, roomName := rn, filePath := filePathFor rn t,
                 status := "starting", message := "Recording started successfully" },
       mapSet rooms rn { room with isRecording := true, egressId := some e },
       true⟩ := by
  simp [startRecordingHandler, validateRoomName_ne_empty rn hv, hv, hrec, hget, ha, hr,
    startLiveRecording]

theorem startRecordingHandler_providerThrow (cfg : ServerConfig) (rooms : Registry)
    (rn : String) (t : Nat) (msg : String) (room : Room)
    (hv : validateRoomName rn = true) (hrec : cfg.recorderAvailable = true)
    (hget : mapGet rooms rn = some room) (ha : room.isActive = true)
    (hr : room.isRecording = false) :
    startRecordingHandler cfg rooms (some rn) t (.throw msg) =
      ⟨.err 500 ("Failed to start recording: " ++ ("Failed to start recording: " ++ msg)),
       rooms, true⟩ := by
  simp [startRecordingHandler, validateRoomName_ne_empty rn hv, hv, hrec, hget, ha, hr,
    startLiveRecording]

theorem startRecordingHandler_throw_rooms (cfg : ServerConfig) (rooms : Registry)
    (roomName : Option String) (t : Nat) (msg : String) :
    (startRecordingHandler cfg rooms roomName t (.throw msg)).rooms = rooms := by
  unfold startRecordingHandler
  cases roomName with
  | none => rfl
  | some rn =>
    dsimp only
    split
    · rfl
    split
    · rfl
    split
    · rfl
    split
    · rfl
    split
    · rfl
    split
    · rfl
    rfl

theorem startRecordingHandler_throw_err (cfg : ServerConfig) (rooms : Registry)
    (roomName : Option String) (t : Nat) (msg : String) :
    ∃ code emsg,
      (startRecordingHandler cfg rooms roomName t (.throw msg)).resp = .err code emsg := by
  unfold startRecordingHandler
  cases roomName with
  | none => exact ⟨400, _, rfl⟩
  | some rn =>
    dsimp only
    split
    · exact ⟨400, _, rfl⟩
    split
    · exact ⟨400, _, rfl⟩
    split
    · exact ⟨500, _, rfl⟩
    split
    · exact ⟨404, _, rfl⟩
    split
    · exact ⟨410, _, rfl⟩
    split
    · exact ⟨409, _, rfl⟩
    exact ⟨500, _, rfl⟩

/-! ### Branch lemmas for the stop, end-room, token, and info endpoints -/

theorem stopRecordingHandler_active (cfg : ServerConfig) (rooms : Registry)
    (eid : String) (p : ProviderStop) (rid : String) (room : Room)
    (hne : eid ≠ "") (hrec : cfg.recorderAvailable = true)
    (hfind : rooms.find? (fun q => decide (q.2.egressId = some eid)) = some (rid, room))
    (hr : room.isRecording = true) :
    stopRecordingHandler cfg rooms (some eid) p =
      ⟨.ok 200 { egressId := (stopLiveRecording cfg.s3 eid p).egressId,
                 s3Url := (stopLiveRecording cfg.s3 eid p).s3Url,
                 status := (stopLiveRecording cfg.s3 eid p).status,
                 error := (stopLiveRecording cfg.s3 eid p).error,
                 message :=
                   if (stopLiveRecording cfg.s3 eid p).status = "completed" then
                     "Recording stopped successfully"
                   else "Recording stopped with errors" },
       mapSet rooms rid
         { room with
             isRecording := false,
             recordingUrl :=
               if (stopLiveRecording cfg.s3 eid p).status = "completed"
                   && truthyOpt (stopLiveRecording cfg.s3 eid p).s3Url then
                 (stopLiveRecording cfg.s3 eid p).s3Url
               else room.recordingUrl }⟩ := by
  simp [stopRecordingHandler, hne, hrec, hfind, hr]

theorem endRoomHandler_found (rooms : Registry) (rid : String) (now : Nat)
    (room : Room) (hv : validateRoomName rid = true)
    (hget : mapGet rooms rid = some room) :
    endRoomHandler rooms rid now =
      (.ok 200 { message := "Room ended successfully", roomId := rid, endedAt := now },
       mapSet rooms rid { room with isActive := false }) := by
  simp [endRoomHandler, validateRoomName_ne_empty rid hv, hv, hget]

theorem getRoomInfoHandler_absent (rooms : Registry) (rid : String) (now : Nat)
    (hv : validateRoomName rid = true) (habs : mapGet rooms rid = none) :
    getRoomInfoHandler rooms rid now =
      .ok 200 { roomId := rid, hostName := "Unknown Host", createdAt := now,
                isActive := true, isRecording := false, recordingUrl := none } := by
  simp [getRoomInfoHandler, validateRoomName_ne_empty rid hv, hv, habs]

theorem generateLiveKitToken_grants (cfg : ServerConfig)
    (rn pn : String) (isHost : Bool) (tok : LiveKitToken)
    (h : generateLiveKitToken cfg rn pn isHost = .ok tok) :
    tok.grants.canPublish = isHost ∧ tok.grants.canSubscribe = true ∧
      tok.grants.canPublishData = true ∧ tok.grants.roomJoin = true := by
  unfold generateLiveKitToken at h
  split at h
  · cases h
  split at h
  · cases h
  injection h with h
  subst h
  exact ⟨rfl, rfl, rfl, rfl⟩

theorem tokenHandler_viewer_absent (cfg : ServerConfig) (rooms : Registry)
    (rn pn : String)
    (hkey : cfg.livekitKeyConfigured = true) (hurl : cfg.livekitUrlConfigured = true)
    (hvr : validateRoomName rn = true) (hvp : validateParticipantName pn = true)
    (habs : mapGet rooms rn = none) :
    tokenHandler cfg rooms (some rn) (some pn) false =
      .ok 200 { token := { identity := pn,
                           grants := { roomJoin := true, room := rn, canPublish := false,
                                       canSubscribe := true, canPublishData := true } },
                roomName := rn, participantName := pn, isHost := false } := by
  have hpn : pn ≠ "" := by
    intro he
    subst he
    simp [validateParticipantName] at hvp
  simp [tokenHandler, validateRoomName_ne_empty rn hvr, hpn, hvr, hvp, habs,
    generateLiveKitToken, hkey, hurl]

theorem tokenHandler_viewer_ended (cfg : ServerConfig) (rooms : Registry)
    (rn pn : String) (room : Room)
    (hvr : validateRoomName rn = true) (hvp : validateParticipantName pn = true)
    (hget : mapGet rooms rn = some room) (hia : room.isActive = false) :
    tokenHandler cfg rooms (some rn) (some pn) false =
      .err 410 "Room inactive: This stream has ended" := by
  have hpn : pn ≠ "" := by
    intro he
    subst he
    simp [validateParticipantName] at hvp
  simp [tokenHandler, validateRoomName_ne_empty rn hvr, hpn, hvr, hvp, hget, hia]

/-! ### Preservation of the recording invariant -/

theorem recInvariant_mapSet (m : Registry) (k : String) (v : Room)
    (hm : RecInvariant m) (hv : v.isRecording = true → v.egressId.isSome = true) :
    RecInvariant (mapSet m k v) := by
  intro p hp hrec
  rcases mem_mapSet m k v p hp with h | h
  · exact hm p h hrec
  · subst h
    exact hv hrec

theorem recInvariant_nil : RecInvariant [] := by
  intro p hp _
  simp at hp

theorem createRoom_preserves (cfg : ServerConfig) (rooms : Registry)
    (hn : Option String) (now : Nat) (newId : String)
    (h : RecInvariant rooms) :
    RecInvariant (createRoomHandler cfg rooms hn now newId).2 := by
  unfold createRoomHandler
  cases hn with
  | none => exact h
  | some s =>
    dsimp only
    split
    · exact h
    split
    · exact h
    split
    · split
      · exact recInvariant_mapSet _ _ _ h (by intro hc; simp at hc)
      · exact recInvariant_mapSet _ _ _ h (by intro hc; simp at hc)
    · exact recInvariant_mapSet _ _ _ h (by intro hc; simp at hc)

theorem endRoom_preserves (rooms : Registry) (rid : String) (now : Nat)
    (h : RecInvariant rooms) :
    RecInvariant (endRoomHandler rooms rid now).2 := by
  unfold endRoomHandler
  split
  · exact h
  split
  · exact h
  rename_i room heq
  exact recInvariant_mapSet _ _ _ h (fun hrec =>
    h (rid, room) (mapGet_mem rooms rid room heq) hrec)

theorem startRec_preserves (cfg : ServerConfig) (rooms : Registry)
    (rn : Option String) (t : Nat) (p : ProviderStart)
    (h : RecInvariant rooms) :
    RecInvariant (startRecordingHandler cfg rooms rn t p).rooms := by
  unfold startRecordingHandler
  cases rn with
  | none => exact h
  | some s =>
    dsimp only
    split
    · exact h
    split
    · exact h
    split
    · exact h
    split
    · exact h
    split
    · exact h
    split
    · exact h
    split
    · exact h
    · exact recInvariant_mapSet _ _ _ h (by intro _; rfl)

theorem stopRec_preserves (cfg : ServerConfig) (rooms : Registry)
    (e : Option String) (p : ProviderStop)
    (h : RecInvariant rooms) :
    RecInvariant (stopRecordingHandler cfg rooms e p).rooms := by
  unfold stopRecordingHandler
  cases e with
  | none => exact h
  | some eid =>
    dsimp only
    split
    · exact h
    split
    · exact h
    split
    · exact h
    split
    · exact h
    exact recInvariant_mapSet _ _ _ h (by intro hc; simp at hc)

theorem stepOp_preserves (cfg : ServerConfig) (rooms : Registry) (op : Op)
    (h : RecInvariant rooms) : RecInvariant (stepOp cfg rooms op) := by
  cases op with
  | createRoom hn now newId => exact createRoom_preserves cfg rooms hn now newId h
  | endRoom rid now => exact endRoom_preserves rooms rid now h
  | startRec rn t p => exact startRec_preserves cfg rooms rn t p h
  | stopRec e p => exact stopRec_preserves cfg rooms e p h
  | getInfo _ _ => exact h
  | getRecStatus _ => exact h
  | issueToken _ _ _ => exact h

theorem runOps_preserves (cfg : ServerConfig) (ops : List Op) :
    ∀ rooms : Registry, RecInvariant rooms → RecInvariant (runOps cfg rooms ops) := by
  induction ops with
  | nil => exact fun rooms h => h
  | cons o rest ih =>
      exact fun rooms h => ih (stepOp cfg rooms o) (stepOp_preserves cfg rooms o h)

/-! ### Claim theorems -/

/-- C1: on a configured system, `startRecording` checks its preconditions in
the order room-exists (404 RoomNotFound), room-active (410 RoomInactive,
taking precedence even over an in-flight recording), not-already-recording
(409 Conflict); two starts in a row without a stop give exactly one
`starting` success and one 409 Conflict with no second provider job; and a
start after ending the room fails with 410 and never calls the provider. -/
theorem claim1_startRecording_preconditions
    (cfg : ServerConfig) (hrec : cfg.recorderAvailable = true)
    (rooms₁ : Registry) (rn₁ : String) (t₁ : Nat) (p₁ : ProviderStart)
    (hv₁ : validateRoomName rn₁ = true) (habs₁ : mapGet rooms₁ rn₁ = none)
    (rooms₂ : Registry) (rn₂ : String) (room₂ : Room) (t₂ : Nat) (p₂ : ProviderStart)
    (hv₂ : validateRoomName rn₂ = true) (hget₂ : mapGet rooms₂ rn₂ = some room₂)
    (hia₂ : room₂.isActive = false)
    (rooms₃ : Registry) (rn₃ : String) (room₃ : Room) (t₃ : Nat) (p₃ : ProviderStart)
    (hv₃ : validateRoomName rn₃ = true) (hget₃ : mapGet rooms₃ rn₃ = some room₃)
    (ha₃ : room₃.isActive = true) (hr₃ : room₃.isRecording = true)
    (rooms₄ : Registry) (rn₄ : String) (room₄ : Room) (t₄ t₅ : Nat) (e₄ : String)
    (p₄ : ProviderStart)
    (hv₄ : validateRoomName rn₄ = true) (hget₄ : mapGet rooms₄ rn₄ = some room₄)
    (ha₄ : room₄.isActive = true) (hnr₄ : room₄.isRecording = false)
    (rooms₅ : Registry) (rn₅ : String) (room₅ : Room) (now₅ t₆ : Nat) (p₅ : ProviderStart)
    (hv₅ : validateRoomName rn₅ = true) (hget₅ : mapGet rooms₅ rn₅ = some room₅) :
    startRecordingHandler cfg rooms₁ (some rn₁) t₁ p₁ =
      ⟨.err 404 "Room not found: The stream you are trying to record does not exist",
       rooms₁, false⟩ ∧
    startRecordingHandler cfg rooms₂ (some rn₂) t₂ p₂ =
      ⟨.err 410 "Room inactive: Cannot start recording for an inactive stream",
       rooms₂, false⟩ ∧
    startRecordingHandler cfg rooms₃ (some rn₃) t₃ p₃ =
      ⟨.err 409 "Recording already active: This stream is already being recorded",
       rooms₃, false⟩ ∧
    ((startRecordingHandler cfg rooms₄ (some rn₄) t₄ (.ok e₄)).resp =
       .ok 201 { egressId := e₄, roomName := rn₄, filePath := filePathFor rn₄ t₄,
                 status := "starting", message := "Recording started successfully" } ∧
     (startRecordingHandler cfg rooms₄ (some rn₄) t₄ (.ok e₄)).providerCalled = true ∧
     startRecordingHandler cfg (startRecordingHandler cfg rooms₄ (some rn₄) t₄ (.ok e₄)).rooms
         (some rn₄) t₅ p₄ =
       ⟨.err 409 "Recording already active: This stream is already being recorded",
        (startRecordingHandler cfg rooms₄ (some rn₄) t₄ (.ok e₄)).rooms, false⟩) ∧
    startRecordingHandler cfg ((endRoomHandler rooms₅ rn₅ now₅).2) (some rn₅) t₆ p₅ =
      ⟨.err 410 "Room inactive: Cannot start recording for an inactive stream",
       (endRoomHandler rooms₅ rn₅ now₅).2, false⟩ := by
  refine ⟨?_, ?_, ?_, ⟨?_, ?_, ?_⟩, ?_⟩
  · exact startRecordingHandler_absent cfg rooms₁ rn₁ t₁ p₁ hv₁ hrec habs₁
  · exact startRecordingHandler_inactive cfg rooms₂ rn₂ t₂ p₂ room₂ hv₂ hrec hget₂ hia₂
  · exact startRecordingHandler_alreadyRecording cfg rooms₃ rn₃ t₃ p₃ room₃ hv₃ hrec hget₃ ha₃ hr₃
  · rw [startRecordingHandler_success cfg rooms₄ rn₄ t₄ e₄ room₄ hv₄ hrec hget₄ ha₄ hnr₄]
  · rw [startRecordingHandler_success cfg rooms₄ rn₄ t₄ e₄ room₄ hv₄ hrec hget₄ ha₄ hnr₄]
  · have hget' : mapGet (startRecordingHandler cfg rooms₄ (some rn₄) t₄ (.ok e₄)).rooms rn₄ =
        some { room₄ with isRecording := true, egressId := some e₄ } := by
      rw [startRecordingHandler_success cfg rooms₄ rn₄ t₄ e₄ room₄ hv₄ hrec hget₄ ha₄ hnr₄]
      exact mapGet_mapSet_self _ _ _
    exact startRecordingHandler_alreadyRecording cfg _ rn₄ t₅ p₄ _ hv₄ hrec hget' ha₄ rfl
  · have hget' : mapGet ((endRoomHandler rooms₅ rn₅ now₅).2) rn₅ =
        some { room₅ with isActive := false } := by
      rw [endRoomHandler_found rooms₅ rn₅ now₅ room₅ hv₅ hget₅]
      exact mapGet_mapSet_self _ _ _
    exact startRecordingHandler_inactive cfg _ rn₅ t₆ p₅ _ hv₅ hrec hget' rfl

/-- Witness for C1 at concrete rooms and provider outcomes. -/
theorem claim1_witness :
    startRecordingHandler cfgEx [] (some "room1") 0 (.ok "eg1") =
      ⟨.err 404 "Room not found: The stream you are trying to record does not exist",
       [], false⟩ ∧
    startRecordingHandler cfgEx [("room2", roomEndedEx)] (some "room2") 0 (.ok "eg2") =
      ⟨.err 410 "Room inactive: Cannot start recording for an inactive stream",
       [("room2", roomEndedEx)], false⟩ ∧
    startRecordingHandler cfgEx [("room3", roomRecEx)] (some "room3") 0 (.ok "eg3") =
      ⟨.err 409 "Recording already active: This stream is already being recorded",
       [("room3", roomRecEx)], false⟩ ∧
    ((startRecordingHandler cfgEx [("room4", roomActiveEx)] (some "room4") 1 (.ok "eg4")).resp =
       .ok 201 { egressId := "eg4", roomName := "room4", filePath := filePathFor "room4" 1,
                 status := "starting", message := "Recording started successfully" } ∧
     (startRecordingHandler cfgEx [("room4", roomActiveEx)] (some "room4") 1 (.ok "eg4")).providerCalled = true ∧
     startRecordingHandler cfgEx
         (startRecordingHandler cfgEx [("room4", roomActiveEx)] (some "room4") 1 (.ok "eg4")).rooms
         (some "room4") 2 (.ok "eg5") =
       ⟨.err 409 "Recording already active: This stream is already being recorded",
        (startRecordingHandler cfgEx [("room4", roomActiveEx)] (some "room4") 1 (.ok "eg4")).rooms,
        false⟩) ∧
    startRecordingHandler cfgEx ((endRoomHandler [("room4", roomActiveEx)] "room4" 3).2)
        (some "room4") 4 (.ok "eg6") =
      ⟨.err 410 "Room inactive: Cannot start recording for an inactive stream",
       (endRoomHandler [("room4", roomActiveEx)] "room4" 3).2, false⟩ :=
  claim1_startRecording_preconditions cfgEx rfl
    [] "room1" 0 (.ok "eg1") (by decide) rfl
    [("room2", roomEndedEx)] "room2" roomEndedEx 0 (.ok "eg2") (by decide) (by decide) rfl
    [("room3", roomRecEx)] "room3" roomRecEx 0 (.ok "eg3") (by decide) (by decide) rfl rfl
    [("room4", roomActiveEx)] "room4" roomActiveEx 1 2 "eg4" (.ok "eg5") (by decide) (by decide)
      rfl rfl
    [("room4", roomActiveEx)] "room4" roomActiveEx 3 4 (.ok "eg6") (by decide) (by decide)

/-- C2: for every stop request whose egress id traces to an owning room
with `isRecording = true`, the owning room ends up with
`isRecording = false` after the operation, for every provider outcome
(completion, failure status, or thrown error). -/
theorem claim2_stopRecording_clears_owning_room
    (cfg : ServerConfig) (rooms : Registry) (eid : String) (p : ProviderStop)
    (rid : String) (room : Room)
    (hne : eid ≠ "") (hrec : cfg.recorderAvailable = true)
    (hfind : rooms.find? (fun q => decide (q.2.egressId = some eid)) = some (rid, room))
    (hr : room.isRecording = true) :
    mapGet (stopRecordingHandler cfg rooms (some eid) p).rooms rid =
      some (roomAfterStop cfg.s3 eid p room) ∧
    (roomAfterStop cfg.s3 eid p room).isRecording = false := by
  have h := stopRecordingHandler_active cfg rooms eid p rid room hne hrec hfind hr
  constructor
  · rw [h]
    exact mapGet_mapSet_self _ _ _
  · rfl

/-- Witness for C2: the provider throws, yet the owning room is cleared. -/
theorem claim2_witness :
    mapGet (stopRecordingHandler cfgEx [("room3", roomRecEx)] (some "eg0")
        (.throw "network down")).rooms "room3" =
      some (roomAfterStop cfgEx.s3 "eg0" (.throw "network down") roomRecEx) ∧
    (roomAfterStop cfgEx.s3 "eg0" (.throw "network down") roomRecEx).isRecording = false :=
  claim2_stopRecording_clears_owning_room cfgEx [("room3", roomRecEx)] "eg0"
    (.throw "network down") "room3" roomRecEx (by decide) rfl (by decide) rfl

/-- C3: a start whose provider call throws leaves the registry unmodified
(first conjunct, for any request shape) and surfaces a 500 error to the
caller (second conjunct, at the point where the provider is actually
reached); a start on a nonexistent room returns 404 and creates no state
(third conjunct). -/
theorem claim3_start_provider_failure_state_intact
    (cfg : ServerConfig) (hrec : cfg.recorderAvailable = true)
    (roomsA : Registry) (rnA : Option String) (tA : Nat) (msgA : String)
    (roomsB : Registry) (rnB : String) (roomB : Room) (tB : Nat) (msgB : String)
    (hvB : validateRoomName rnB = true) (hgetB : mapGet roomsB rnB = some roomB)
    (haB : roomB.isActive = true) (hnrB : roomB.isRecording = false)
    (roomsC : Registry) (rnC : String) (tC : Nat) (pC : ProviderStart)
    (hvC : validateRoomName rnC = true) (habsC : mapGet roomsC rnC = none) :
    (startRecordingHandler cfg roomsA rnA tA (.throw msgA)).rooms = roomsA ∧
    startRecordingHandler cfg roomsB (some rnB) tB (.throw msgB) =
      ⟨.err 500 ("Failed to start recording: " ++ ("Failed to start recording: " ++ msgB)),
       roomsB, true⟩ ∧
    startRecordingHandler cfg roomsC (some rnC) tC pC =
      ⟨.err 404 "Room not found: The stream you are trying to record does not exist",
       roomsC, false⟩ := by
  refine ⟨?_, ?_, ?_⟩
  · exact startRecordingHandler_throw_rooms cfg roomsA rnA tA msgA
  · exact startRecordingHandler_providerThrow cfg roomsB rnB tB msgB roomB hvB hrec hgetB haB hnrB
  · exact startRecordingHandler_absent cfg roomsC rnC tC pC hvC hrec habsC

/-- Witness for C3 at a concrete throwing provider and a missing room. -/
theorem claim3_witness :
    (startRecordingHandler cfgEx [("room4", roomActiveEx)] (some "room4") 0
        (.throw "egress down")).rooms = [("room4", roomActiveEx)] ∧
    startRecordingHandler cfgEx [("room4", roomActiveEx)] (some "room4") 0
        (.throw "egress down") =
      ⟨.err 500 ("Failed to start recording: " ++ ("Failed to start recording: " ++ "egress down")),
       [("room4", roomActiveEx)], true⟩ ∧
    startRecordingHandler cfgEx [] (some "ghost") 0 (.ok "eg9") =
      ⟨.err 404 "Room not found: The stream you are trying to record does not exist",
       [], false⟩ :=
  claim3_start_provider_failure_state_intact cfgEx rfl
    [("room4", roomActiveEx)] (some "room4") 0 "egress down"
    [("room4", roomActiveEx)] "room4" roomActiveEx 0 "egress down"
    (by decide) (by decide) rfl rfl
    [] "ghost" 0 (.ok "eg9") (by decide) rfl

/-- C10: when the stop outcome is `failed`, the only field of the owning
room that changes is `isRecording` (the stored egress id and any earlier
recording URL are retained); `recordingUrl` is overwritten exactly when the
stop completes with a produced (truthy) URL. -/
theorem claim10_stopRecording_failed_frame
    (cfg : ServerConfig) (rooms : Registry) (eid : String) (p : ProviderStop)
    (rid : String) (room : Room)
    (hne : eid ≠ "") (hrec : cfg.recorderAvailable = true)
    (hfind : rooms.find? (fun q => decide (q.2.egressId = some eid)) = some (rid, room))
    (hr : room.isRecording = true) :
    ((stopLiveRecording cfg.s3 eid p).status = "failed" →
      mapGet (stopRecordingHandler cfg rooms (some eid) p).rooms rid =
        some { room with isRecording := false }) ∧
    ((stopLiveRecording cfg.s3 eid p).status = "completed" →
      truthyOpt (stopLiveRecording cfg.s3 eid p).s3Url = true →
      mapGet (stopRecordingHandler cfg rooms (some eid) p).rooms rid =
        some { room with isRecording := false,
                         recordingUrl := (stopLiveRecording cfg.s3 eid p).s3Url }) := by
  have h := stopRecordingHandler_active cfg rooms eid p rid room hne hrec hfind hr
  constructor
  · intro hst
    rw [h, mapGet_mapSet_self]
    simp [hst]
  · intro hst htr
    rw [h, mapGet_mapSet_self]
    simp [hst, htr]

/-- Witness for C10: a failed provider stop leaves everything but
`isRecording` intact on a room that also has an earlier recording URL. -/
theorem claim10_witness :
    ((stopLiveRecording cfgEx.s3 "eg0" (.result .aborted [])).status = "failed" →
      mapGet (stopRecordingHandler cfgEx [("room3", roomRecEx)] (some "eg0")
          (.result .aborted [])).rooms "room3" =
        some { roomRecEx with isRecording := false }) ∧
    ((stopLiveRecording cfgEx.s3 "eg0" (.result .aborted [])).status = "completed" →
      truthyOpt (stopLiveRecording cfgEx.s3 "eg0" (.result .aborted [])).s3Url = true →
      mapGet (stopRecordingHandler cfgEx [("room3", roomRecEx)] (some "eg0")
          (.result .aborted [])).rooms "room3" =
        some { roomRecEx with
                 isRecording := false,
                 recordingUrl := (stopLiveRecording cfgEx.s3 "eg0" (.result .aborted [])).s3Url }) :=
  claim10_stopRecording_failed_frame cfgEx [("room3", roomRecEx)] "eg0"
    (.result .aborted []) "room3" roomRecEx (by decide) rfl (by decide) rfl

/-- C4: the invariant `recordingActive ⇒ recordingJobId set` (here
`isRecording ⇒ egressId ≠ none`) is preserved by every single gateway
operation, and holds after every sequence of operations run from the empty
registry. -/
theorem claim4_recording_invariant
    (cfg : ServerConfig) (rooms : Registry) (op : Op) (ops : List Op)
    (h : RecInvariant rooms) :
    RecInvariant (stepOp cfg rooms op) ∧ RecInvariant (runOps cfg [] ops) :=
  ⟨stepOp_preserves cfg rooms op h, runOps_preserves cfg ops [] recInvariant_nil⟩

/-- Witness for C4 on a concrete registry and operation sequence. -/
theorem claim4_witness :
    RecInvariant (stepOp cfgEx [("room4", roomActiveEx)]
      (.startRec (some "room4") 0 (.ok "eg7"))) ∧
    RecInvariant (runOps cfgEx []
      [.createRoom (some "Alice") 0 "room1",
       .startRec (some "room1") 1 (.ok "eg8"),
       .endRoom "room1" 2,
       .stopRec (some "eg8") (.throw "boom")]) :=
  claim4_recording_invariant cfgEx [("room4", roomActiveEx)]
    (.startRec (some "room4") 0 (.ok "eg7"))
    [.createRoom (some "Alice") 0 "room1",
     .startRec (some "room1") 1 (.ok "eg8"),
     .endRoom "room1" 2,
     .stopRec (some "eg8") (.throw "boom")]
    (by
      intro p hp hrec
      simp only [List.mem_singleton] at hp
      subst hp
      simp [roomActiveEx] at hrec)

/-- C5: a viewer (`isHost = false`) token request with valid inputs on a
configured system succeeds even when the room is absent from the registry,
but fails with 410 RoomEnded when the room exists and is inactive. -/
theorem claim5_viewer_token_policy
    (cfg : ServerConfig)
    (hkey : cfg.livekitKeyConfigured = true) (hurl : cfg.livekitUrlConfigured = true)
    (roomsA : Registry) (rnA pnA : String)
    (hvrA : validateRoomName rnA = true) (hvpA : validateParticipantName pnA = true)
    (habsA : mapGet roomsA rnA = none)
    (roomsB : Registry) (rnB pnB : String) (roomB : Room)
    (hvrB : validateRoomName rnB = true) (hvpB : validateParticipantName pnB = true)
    (hgetB : mapGet roomsB rnB = some roomB) (hiaB : roomB.isActive = false) :
    tokenHandler cfg roomsA (some rnA) (some pnA) false =
      .ok 200 { token := { identity := pnA,
                           grants := { roomJoin := true, room := rnA, canPublish := false,
                                       canSubscribe := true, canPublishData := true } },
                roomName := rnA, participantName := pnA, isHost := false } ∧
    tokenHandler cfg roomsB (some rnB) (some pnB) false =
      .err 410 "Room inactive: This stream has ended" :=
  ⟨tokenHandler_viewer_absent cfg roomsA rnA pnA hkey hurl hvrA hvpA habsA,
   tokenHandler_viewer_ended cfg roomsB rnB pnB roomB hvrB hvpB hgetB hiaB⟩

/-- Witness for C5: a viewer joining a never-created room gets a token; a
viewer joining an ended room gets 410. -/
theorem claim5_witness :
    tokenHandler cfgEx [] (some "ghost") (some "Bob") false =
      .ok 200 { token := { identity := "Bob",
                           grants := { roomJoin := true, room := "ghost", canPublish := false,
                                       canSubscribe := true, canPublishData := true } },
                roomName := "ghost", participantName := "Bob", isHost := false } ∧
    tokenHandler cfgEx [("room2", roomEndedEx)] (some "room2") (some "Bob") false =
      .err 410 "Room inactive: This stream has ended" :=
  claim5_viewer_token_policy cfgEx rfl rfl
    [] "ghost" "Bob" (by decide) (by decide) rfl
    [("room2", roomEndedEx)] "room2" "Bob" roomEndedEx (by decide) (by decide) rfl rfl

/-- C6: ending an existing room succeeds and marks it inactive, and ending
it again succeeds again and leaves the registry literally unchanged. -/
theorem claim6_endRoom_idempotent
    (rooms : Registry) (rid : String) (now now₂ : Nat) (room : Room)
    (hv : validateRoomName rid = true) (hget : mapGet rooms rid = some room) :
    endRoomHandler rooms rid now =
      (.ok 200 { message := "Room ended successfully", roomId := rid, endedAt := now },
       mapSet rooms rid { room with isActive := false }) ∧
    mapGet ((endRoomHandler rooms rid now).2) rid = some { room with isActive := false } ∧
    endRoomHandler ((endRoomHandler rooms rid now).2) rid now₂ =
      (.ok 200 { message := "Room ended successfully", roomId := rid, endedAt := now₂ },
       (endRoomHandler rooms rid now).2) := by
  have h₁ := endRoomHandler_found rooms rid now room hv hget
  have hget₂ : mapGet ((endRoomHandler rooms rid now).2) rid =
      some { room with isActive := false } := by
    rw [h₁]
    exact mapGet_mapSet_self _ _ _
  refine ⟨h₁, hget₂, ?_⟩
  have h₂ := endRoomHandler_found ((endRoomHandler rooms rid now).2) rid now₂
    { room with isActive := false } hv hget₂
  have h₁' : (endRoomHandler rooms rid now).2 =
      mapSet rooms rid { room with isActive := false } := by
    rw [h₁]
  rw [h₂, h₁']
  exact congrArg (Prod.mk _)
    (mapSet_mapSet_same rooms rid { room with isActive := false })

/-- Witness for C6 on a concrete room ended twice. -/
theorem claim6_witness :
    endRoomHandler [("room4", roomActiveEx)] "room4" 5 =
      (.ok 200 { message := "Room ended successfully", roomId := "room4", endedAt := 5 },
       mapSet [("room4", roomActiveEx)] "room4" { roomActiveEx with isActive := false }) ∧
    mapGet ((endRoomHandler [("room4", roomActiveEx)] "room4" 5).2) "room4" =
      some { roomActiveEx with isActive := false } ∧
    endRoomHandler ((endRoomHandler [("room4", roomActiveEx)] "room4" 5).2) "room4" 6 =
      (.ok 200 { message := "Room ended successfully", roomId := "room4", endedAt := 6 },
       (endRoomHandler [("room4", roomActiveEx)] "room4" 5).2) :=
  claim6_endRoom_idempotent [("room4", roomActiveEx)] "room4" 5 6 roomActiveEx
    (by decide) rfl

/-- C8: grants are determined by role: host credentials carry
publish+subscribe+data, viewer credentials carry subscribe+data but never
publish. -/
theorem claim8_grants_by_role
    (cfg : ServerConfig) (rn pn : String) (tokH tokV : LiveKitToken)
    (hH : generateLiveKitToken cfg rn pn true = .ok tokH)
    (hV : generateLiveKitToken cfg rn pn false = .ok tokV) :
    (tokH.grants.canPublish = true ∧ tokH.grants.canSubscribe = true ∧
      tokH.grants.canPublishData = true) ∧
    (tokV.grants.canPublish = false ∧ tokV.grants.canSubscribe = true ∧
      tokV.grants.canPublishData = true) := by
  obtain ⟨h1, h2, h3, _⟩ := generateLiveKitToken_grants cfg rn pn true tokH hH
  obtain ⟨g1, g2, g3, _⟩ := generateLiveKitToken_grants cfg rn pn false tokV hV
  exact ⟨⟨h1, h2, h3⟩, ⟨g1, g2, g3⟩⟩

/-- Witness for C8 with concretely issued host and viewer tokens. -/
theorem claim8_witness :
    (({ identity := "Bob",
        grants := { roomJoin := true, room := "room1", canPublish := true,
                    canSubscribe := true, canPublishData := true } } :
        LiveKitToken).grants.canPublish = true ∧
      ({ identity := "Bob",
         grants := { roomJoin := true, room := "room1", canPublish := true,
                     canSubscribe := true, canPublishData := true } } :
         LiveKitToken).grants.canSubscribe = true ∧
      ({ identity := "Bob",
         grants := { roomJoin := true, room := "room1", canPublish := true,
                     canSubscribe := true, canPublishData := true } } :
         LiveKitToken).grants.canPublishData = true) ∧
    (({ identity := "Bob",
        grants := { roomJoin := true, room := "room1", canPublish := false,
                    canSubscribe := true, canPublishData := true } } :
        LiveKitToken).grants.canPublish = false ∧
      ({ identity := "Bob",
         grants := { roomJoin := true, room := "room1", canPublish := false,
                     canSubscribe := true, canPublishData := true } } :
         LiveKitToken).grants.canSubscribe = true ∧
      ({ identity := "Bob",
         grants := { roomJoin := true, room := "room1", canPublish := false,
                     canSubscribe := true, canPublishData := true } } :
         LiveKitToken).grants.canPublishData = true) :=
  claim8_grants_by_role cfgEx "room1" "Bob" _ _ rfl rfl

/-- C9: querying info for a valid room id absent from the registry returns
a 200 success with fabricated defaults (host "Unknown Host", active, not
recording, no URL) — not a 404 — and that response coincides with the one
for a room freshly created at the same instant by a host named
"Unknown Host". -/
theorem claim9_roomInfo_absent_fabricated
    (cfg : ServerConfig) (rooms : Registry) (rid : String) (now : Nat)
    (hv : validateRoomName rid = true) (habs : mapGet rooms rid = none) :
    getRoomInfoHandler rooms rid now =
      .ok 200 { roomId := rid, hostName := "Unknown Host", createdAt := now,
                isActive := true, isRecording := false, recordingUrl := none } ∧
    getRoomInfoHandler rooms rid now =
      getRoomInfoHandler ((createRoomHandler cfg [] (some "Unknown Host") now rid).2)
        rid now := by
  have h₁ := getRoomInfoHandler_absent rooms rid now hv habs
  refine ⟨h₁, ?_⟩
  have h₂ : (createRoomHandler cfg [] (some "Unknown Host") now rid).2 =
      [(rid, { id := rid, hostName := "Unknown Host", createdAt := now,
               isActive := true, recordingUrl := none, egressId := none,
               isRecording := false })] := by
    unfold createRoomHandler
    dsimp only
    rw [if_neg (by decide), if_neg (by decide)]
    split
    · split
      · rfl
      · rfl
    · rfl
  rw [h₁, h₂]
  simp [getRoomInfoHandler, validateRoomName_ne_empty rid hv, hv, mapGet]

/-- Witness for C9 on a concrete never-created room id. -/
theorem claim9_witness :
    getRoomInfoHandler [] "ghost" 7 =
      .ok 200 { roomId := "ghost", hostName := "Unknown Host", createdAt := 7,
                isActive := true, isRecording := false, recordingUrl := none } ∧
    getRoomInfoHandler [] "ghost" 7 =
      getRoomInfoHandler ((createRoomHandler cfgEx [] (some "Unknown Host") 7 "ghost").2)
        "ghost" 7 :=
  claim9_roomInfo_absent_fabricated cfgEx [] "ghost" 7 (by decide) rfl

/-- C7: from a controller state with no consumed retries, three successive
retry invocations schedule network calls with exponential backoff delays of
1s, 2s, and 4s; the fourth attempt is refused locally with the terminal
retries-exhausted message, schedules no network call, and leaves a state
with `canRetry = false`. -/
theorem claim7_retry_cap_and_backoff
    (s : RecordingState) (h0 : s.retryCount = 0) :
    retryRecording s =
      .scheduled 1000
        { s with error := some "Retrying in 1 seconds... (1/3)", retryCount := 1 } ∧
    retryRecording
        { s with error := some "Retrying in 1 seconds... (1/3)", retryCount := 1 } =
      .scheduled 2000
        { s with error := some "Retrying in 2 seconds... (2/3)", retryCount := 2 } ∧
    retryRecording
        { s with error := some "Retrying in 2 seconds... (2/3)", retryCount := 2 } =
      .scheduled 4000
        { s with error := some "Retrying in 4 seconds... (3/3)", retryCount := 3 } ∧
    retryRecording
        { s with error := some "Retrying in 4 seconds... (3/3)", retryCount := 3 } =
      .refused
        { s with error := some "Maximum retry attempts reached. Please try again later.",
                 retryCount := 3 } ∧
    canRetry
        { s with error := some "Maximum retry attempts reached. Please try again later.",
                 retryCount := 3 } = false := by
  refine ⟨?_, ?_, ?_, ?_, rfl⟩
  · unfold retryRecording
    rw [h0]
    norm_num
    rfl
  · unfold retryRecording
    norm_num
    rfl
  · unfold retryRecording
    norm_num
    rfl
  · unfold retryRecording
    norm_num

/-- Witness for C7 from the initial controller state. -/
theorem claim7_witness :
    retryRecording initialRecordingState =
      .scheduled 1000
        { initialRecordingState with
            error := some "Retrying in 1 seconds... (1/3)", retryCount := 1 } ∧
    retryRecording
        { initialRecordingState with
            error := some "Retrying in 1 seconds... (1/3)", retryCount := 1 } =
      .scheduled 2000
        { initialRecordingState with
            error := some "Retrying in 2 seconds... (2/3)", retryCount := 2 } ∧
    retryRecording
        { initialRecordingState with
            error := some "Retrying in 2 seconds... (2/3)", retryCount := 2 } =
      .scheduled 4000
        { initialRecordingState with
            error := some "Retrying in 4 seconds... (3/3)", retryCount := 3 } ∧
    retryRecording
        { initialRecordingState with
            error := some "Retrying in 4 seconds... (3/3)", retryCount := 3 } =
      .refused
        { initialRecordingState with
            error := some "Maximum retry attempts reached. Please try again later.",
            retryCount := 3 } ∧
    canRetry
        { initialRecordingState with
            error := some "Maximum retry attempts reached. Please try again later.",
            retryCount := 3 } = false :=
  claim7_retry_cap_and_backoff initialRecordingState rfl

end LivekitStream
